import Mathlib

/-!
Verification of the rule-based helpdesk triage core (`src/app.py`).

Shallow embedding of the deterministic classification / escalation logic of
the helpdesk-ticket triage tool.  Python strings are Lean `String`s, Python
dicts with fixed insertion order are association lists in that order, and the
Python substring test `w in t` is modelled by an executable containment check
on the underlying character lists.
-/

/-- ASCII model of Python's `str.lower` on a single character: the letters
`A`–`Z` (code points 65–90) are shifted up by 32, everything else is kept. -/
def lowerChar (c : Char) : Char :=
  if 65 ≤ c.toNat ∧ c.toNat ≤ 90 then Char.ofNat (c.toNat + 32) else c

/-- ASCII model of Python's `str.upper` on a single character. -/
def upperChar (c : Char) : Char :=
  if 97 ≤ c.toNat ∧ c.toNat ≤ 122 then Char.ofNat (c.toNat - 32) else c

/-- Model of Python's `text.lower()`. -/
def pyLower (s : String) : String :=
  ⟨s.data.map lowerChar⟩

/-- Predicate `startsWithL t w` holds when the character list `w` is an initial segment
of the character list `t`. -/
def startsWithL : List Char → List Char → Bool
  | _, [] => true
  | [], _ :: _ => false
  | c :: cs, d :: ds => c == d && startsWithL cs ds

/-- Containment check `occursL w t`: the character list `w` appears contiguously somewhere in
`t`.  This models Python's `w in t` on strings. -/
def occursL (w : List Char) : List Char → Bool
  | [] => w.isEmpty
  | c :: rest => startsWithL (c :: rest) w || occursL w rest

/-- Python's `w in t` substring containment on strings. -/
def pyIn (w t : String) : Bool :=
  occursL w.data t.data

/-- Model of Python's `str.title` on ASCII text: an alphabetic character is
upper-cased when the previous character is not alphabetic and lower-cased
otherwise; the flag carries whether the previous character was alphabetic. -/
def pyTitleGo : Bool → List Char → List Char
  | _, [] => []
  | prevAlpha, c :: cs =>
    (if c.isAlpha then (if prevAlpha then lowerChar c else upperChar c) else c)
      :: pyTitleGo c.isAlpha cs

/-- Model of Python's `text.title()`. -/
def pyTitle (s : String) : String :=
  ⟨pyTitleGo false s.data⟩

/-- First-match lookup in an association list, modelling Python `dict`
access on a dict built in a fixed insertion order. -/
def lookupStr {α : Type} : List (String × α) → String → Option α
  | [], _ => none
  | p :: ps, k => if p.1 == k then some p.2 else lookupStr ps k

/-- The `KEYWORDS` table of `src/app.py` (lines 20–25), in source order:
network, hardware, software, account. -/
def KEYWORDS : List (String × List String) :=
  [ ("network", ["wifi", "wi-fi", "ethernet", "latency", "vpn", "proxy", "dns", "network"]),
    ("hardware", ["laptop", "keyboard", "mouse", "monitor", "battery", "charger", "power", "fan", "overheating"]),
    ("software", ["update", "install", "error", "bug", "crash", "app", "software", "driver", "patch"]),
    ("account", ["login", "locked", "password", "mfa", "2fa", "permission", "access", "account"]) ]

/-- The `SUGGESTIONS` table of `src/app.py` (lines 27–56), in source order. -/
def SUGGESTIONS : List (String × List String) :=
  [ ("network",
      [ "Toggle Wi‑Fi adapter off/on",
        "Forget & re‑add the SSID",
        "Run ipconfig /flushdns (Windows) or dscacheutil -flushcache (macOS)",
        "Test with Ethernet or mobile hotspot",
        "Check VPN/Proxy settings" ]),
    ("hardware",
      [ "Power cycle device",
        "Check cables/ports",
        "Run Device Manager/Drivers health check",
        "Run OEM diagnostics",
        "Open a replacement request if persistent" ]),
    ("software",
      [ "Reboot and retry",
        "Clear cache/temp files",
        "Reinstall or rollback latest update",
        "Check logs for recent errors",
        "Open vendor ticket if reproducible" ]),
    ("account",
      [ "Attempt self‑service password reset",
        "Verify MFA device/time sync",
        "Check group/role permissions",
        "Escalate to IAM if blocked",
        "Security check for suspicious activity" ]) ]

/-- Model of `sum(1 for w in words if w in t)` from `src/app.py` line 62: the number of
triggers from `words` contained in `t`. -/
def keywordScore (words : List String) (t : String) : Nat :=
  (words.filter (fun w => pyIn w t)).length

/-- The `scores` dict of `rule_based_classify` (lines 60–62), in the
iteration order of `KEYWORDS`. -/
def scoreList (t : String) : List (String × Nat) :=
  KEYWORDS.map (fun p => (p.1, keywordScore p.2 t))

/-- Python's `max` over `(key, value)` pairs compared by value: it keeps the
first pair and replaces it only on a strictly larger value, so on ties the
earliest pair in iteration order wins — exactly `max(scores, key=scores.get)`
paired with `max(scores.values())`. -/
def maxFrom (best : String × Nat) : List (String × Nat) → String × Nat
  | [] => best
  | p :: ps => maxFrom (if best.2 < p.2 then p else best) ps

/-- Function `rule_based_classify` of `src/app.py` (lines 58–63). -/
def rule_based_classify (text : String) : String :=
  let t := pyLower text
  match scoreList t with
  | [] => "software"
  | p :: ps => if 0 < (maxFrom p ps).2 then (maxFrom p ps).1 else "software"

/-- Function `rule_based_steps` of `src/app.py` (lines 65–66):
`SUGGESTIONS.get(category, SUGGESTIONS["software"])`.  The default argument
`SUGGESTIONS["software"]` is itself a lookup that succeeds on the concrete
table; the `getD []` on it is unreachable. -/
def rule_based_steps (category : String) : List String :=
  (lookupStr SUGGESTIONS category).getD ((lookupStr SUGGESTIONS "software").getD [])

/-- The `red_flags` list of `rule_based_escalation` (line 69). -/
def red_flags : List String :=
  ["data loss", "smoke", "burning", "security", "breach", "ransom", "admin down", "outage"]

/-- The persistence indicator list of `rule_based_escalation` (line 71). -/
def persistence_words : List String :=
  ["still", "again", "week", "days", "months"]

/-- Function `rule_based_escalation` of `src/app.py` (lines 68–72).  The `persistent`
indicator is computed, as in the source, but does not appear in the result. -/
def rule_based_escalation (text : String) (category : String) : Bool :=
  let long_wait := red_flags.any (fun p => pyIn p (pyLower text))
  let persistent := persistence_words.any (fun p => pyIn p (pyLower text))
  long_wait || ["hardware", "account"].contains category

/-- The result record assembled by `analyze_ticket` / `llm_analyze`. -/
structure AnalysisResult where
  category : String
  steps : List String
  escalate : Bool
  summary : String
deriving DecidableEq

/-- The raw record parsed from the external collaborator's reply, before the
field-level defaulting of `llm_analyze` lines 95–98; each field may be
missing. -/
structure RawResult where
  rcategory : Option String
  rsteps : Option (List String)
  rescalate : Option Bool
  rsummary : Option String

/-- Model of Python's `str.strip` restricted to ASCII whitespace. -/
def pyStrip (s : String) : String :=
  s.trim

/-- The fallback record built in the `except` branch of `llm_analyze`
(`src/app.py` lines 100–107). -/
def llm_fallback (subject body : String) : AnalysisResult :=
  let category := rule_based_classify (subject ++ " " ++ body)
  { category := category,
    steps := rule_based_steps category,
    escalate := rule_based_escalation (subject ++ " " ++ body) category,
    summary := pyTitle category ++ " issue detected. Suggested standard troubleshooting steps applied." }

/-- Function `llm_analyze` of `src/app.py` (lines 74–107).  The external call and JSON
parse are modelled by an `Option RawResult` argument: `some raw` is a reply
that parsed, `none` is any exception (network failure, non-JSON payload,
timeout), which the source catches and answers with the fallback record. -/
def llm_analyze (collab : Option RawResult) (subject body : String) : AnalysisResult :=
  match collab with
  | some data =>
    { category := pyLower (data.rcategory.getD "software"),
      steps := (data.rsteps.getD []).take 8,
      escalate := data.rescalate.getD false,
      summary := pyStrip (data.rsummary.getD "") }
  | none => llm_fallback subject body

/-- The deterministic branch of `analyze_ticket` (`src/app.py` lines 112–118). -/
def analyze_det (subject body : String) : AnalysisResult :=
  let category := rule_based_classify (subject ++ " " ++ body)
  { category := category,
    steps := rule_based_steps category,
    escalate := rule_based_escalation (subject ++ " " ++ body) category,
    summary := pyTitle category ++ " issue. Applying baseline playbook. Escalate if unresolved." }

/-- Function `analyze_ticket` of `src/app.py` (lines 109–118); `use_llm` and the
collaborator outcome are passed explicitly. -/
def analyze_ticket (use_llm : Bool) (collab : Option RawResult) (subject body : String) : AnalysisResult :=
  if use_llm then llm_analyze collab subject body else analyze_det subject body

/-- The spec's description of the classifier (§4.1), written from its words:
lower-case the text, count for each category the distinct triggers contained
in it, take the maximum count; if it is zero return `software`, otherwise the
first category in `KEYWORDS` order whose count equals the maximum (the
category with the strictly highest count, ties broken by enumeration order). -/
def specClassify (s : String) : String :=
  let sc := scoreList (pyLower s)
  let m := (sc.map Prod.snd).foldr Nat.max 0
  if m = 0 then "software"
  else ((sc.find? (fun q => q.2 == m)).map Prod.fst).getD "software"

theorem lowerChar_idem (c : Char) : lowerChar (lowerChar c) = lowerChar c := by
  unfold lowerChar
  by_cases h : 65 ≤ c.toNat ∧ c.toNat ≤ 90
  · rw [if_pos h]
    have h32 : (Char.ofNat (c.toNat + 32)).toNat = c.toNat + 32 := by
      obtain ⟨h1, h2⟩ := h
      generalize hn : c.toNat = n at h1 h2
      interval_cases n <;> decide
    rw [if_neg]
    rw [h32]
    omega
  · rw [if_neg h, if_neg h]

theorem map_lowerChar_idem (l : List Char) :
    (l.map lowerChar).map lowerChar = l.map lowerChar := by
  induction l with
  | nil => rfl
  | cons c cs ih => simp [lowerChar_idem, ih]

theorem pyLower_idem (s : String) : pyLower (pyLower s) = pyLower s := by
  unfold pyLower
  congr 1
  exact map_lowerChar_idem s.data

/-- C9: the concrete Wi-Fi scenario: category `network`, no escalation, and
the five network suggestions in their fixed order. -/
theorem wifi_scenario :
    (analyze_det "Wi-Fi not connecting" "DNS fails, VPN also down").category = "network" ∧
    (analyze_det "Wi-Fi not connecting" "DNS fails, VPN also down").escalate = false ∧
    (analyze_det "Wi-Fi not connecting" "DNS fails, VPN also down").steps =
      [ "Toggle Wi‑Fi adapter off/on",
        "Forget & re‑add the SSID",
        "Run ipconfig /flushdns (Windows) or dscacheutil -flushcache (macOS)",
        "Test with Ethernet or mobile hotspot",
        "Check VPN/Proxy settings" ] := by
  refine ⟨by decide, by decide, by decide⟩

/-- C10: the deterministic path is total on the empty ticket and returns the
software defaults with no escalation. -/
theorem empty_ticket_total :
    (analyze_det "" "").category = "software" ∧
    (analyze_det "" "").steps =
      [ "Reboot and retry",
        "Clear cache/temp files",
        "Reinstall or rollback latest update",
        "Check logs for recent errors",
        "Open vendor ticket if reproducible" ] ∧
    (analyze_det "" "").escalate = false := by
  refine ⟨by decide, by decide, by decide⟩

/-- C2: `rule_based_escalation` is true exactly when a red-flag substring
occurs in the lower-cased text or the category is `hardware` or `account`;
the result depends on the text only through the red-flag check, so the
persistence indicator has no effect on the returned value. -/
theorem escalation_spec (text category : String) :
    (rule_based_escalation text category = true ↔
      ((∃ w ∈ red_flags, pyIn w (pyLower text) = true) ∨
        category = "hardware" ∨ category = "account")) ∧
    (∀ t₂, red_flags.any (fun p => pyIn p (pyLower text)) =
        red_flags.any (fun p => pyIn p (pyLower t₂)) →
      rule_based_escalation text category = rule_based_escalation t₂ category) := by
  constructor
  · simp [rule_based_escalation, List.any_eq_true]
  · intro t₂ h
    simp only [rule_based_escalation]
    rw [h]

theorem escalation_spec_witness :
    rule_based_escalation "slow today" "network" = rule_based_escalation "slow" "network" :=
  (escalation_spec "slow today" "network").2 "slow" (by decide)

/-- C3 (amended): on collaborator failure the orchestrator answers with the
deterministic classification, steps and escalation flag — but not the
deterministic summary template. -/
theorem llm_fallback_agrees (subject body : String) :
    (analyze_ticket true none subject body).category = (analyze_det subject body).category ∧
    (analyze_ticket true none subject body).steps = (analyze_det subject body).steps ∧
    (analyze_ticket true none subject body).escalate = (analyze_det subject body).escalate :=
  ⟨rfl, rfl, rfl⟩

/-- C3 (counterexample): the fallback result is not equal to the
deterministic result in every field — the summary strings differ
("... issue detected. Suggested standard troubleshooting steps applied."
versus "... issue. Applying baseline playbook. Escalate if unresolved."). -/
theorem llm_fallback_summary_differs :
    analyze_ticket true none "x" "y" ≠ analyze_ticket false none "x" "y" := by
  decide

/-- C8: classification is case-insensitive — lower-casing the input first
does not change the result; in particular on "WIFI down" and "wifi down". -/
theorem classify_case_insensitive :
    (∀ s, rule_based_classify s = rule_based_classify (pyLower s)) ∧
    rule_based_classify "WIFI down" = rule_based_classify "wifi down" := by
  constructor
  · intro s
    simp only [rule_based_classify]
    rw [pyLower_idem]
  · decide

/-- Evaluation of the first-match search over the four score entries when the
maximum is the first entry. -/
theorem getD_find4_network (a b c d m : Nat) (h : a = m) :
    (([("network", a), ("hardware", b), ("software", c), ("account", d)].find?
      (fun q => q.2 == m)).map Prod.fst).getD "software" = "network" := by
  rw [List.find?_cons_of_pos _ (by simp [h])]
  rfl

theorem getD_find4_hardware (a b c d m : Nat) (ha : ¬ a = m) (h : b = m) :
    (([("network", a), ("hardware", b), ("software", c), ("account", d)].find?
      (fun q => q.2 == m)).map Prod.fst).getD "software" = "hardware" := by
  rw [List.find?_cons_of_neg _ (by simp [ha]), List.find?_cons_of_pos _ (by simp [h])]
  rfl

theorem getD_find4_software (a b c d m : Nat) (ha : ¬ a = m) (hb : ¬ b = m) (h : c = m) :
    (([("network", a), ("hardware", b), ("software", c), ("account", d)].find?
      (fun q => q.2 == m)).map Prod.fst).getD "software" = "software" := by
  rw [List.find?_cons_of_neg _ (by simp [ha]), List.find?_cons_of_neg _ (by simp [hb]),
    List.find?_cons_of_pos _ (by simp [h])]
  rfl

theorem getD_find4_account (a b c d m : Nat) (ha : ¬ a = m) (hb : ¬ b = m) (hc : ¬ c = m)
    (h : d = m) :
    (([("network", a), ("hardware", b), ("software", c), ("account", d)].find?
      (fun q => q.2 == m)).map Prod.fst).getD "software" = "account" := by
  rw [List.find?_cons_of_neg _ (by simp [ha]), List.find?_cons_of_neg _ (by simp [hb]),
    List.find?_cons_of_neg _ (by simp [hc]), List.find?_cons_of_pos _ (by simp [h])]
  rfl

theorem maxFrom4_unfold (a b c d : Nat) :
    maxFrom ("network", a) [("hardware", b), ("software", c), ("account", d)] =
      maxFrom
        (if (if (if a < b then ("hardware", b) else ("network", a)).2 < c
             then ("software", c)
             else (if a < b then ("hardware", b) else ("network", a))).2 < d
         then ("account", d)
         else (if (if a < b then ("hardware", b) else ("network", a)).2 < c
               then ("software", c)
               else (if a < b then ("hardware", b) else ("network", a)))) [] := rfl

theorem select_eq (a b c d : Nat) :
    (if 0 < (maxFrom ("network", a) [("hardware", b), ("software", c), ("account", d)]).2
     then (maxFrom ("network", a) [("hardware", b), ("software", c), ("account", d)]).1
     else "software")
    = (if Nat.max a (Nat.max b (Nat.max c (Nat.max d 0))) = 0 then "software"
       else (([("network", a), ("hardware", b), ("software", c), ("account", d)].find?
          (fun q => q.2 == Nat.max a (Nat.max b (Nat.max c (Nat.max d 0))))).map Prod.fst).getD "software") := by
  by_cases h1 : a < b
  · by_cases h2 : b < c
    · by_cases h3 : c < d
      · have hw : maxFrom ("network", a) [("hardware", b), ("software", c), ("account", d)]
            = ("account", d) := by
          rw [maxFrom4_unfold, if_pos h1, if_pos h2, if_pos h3]; rfl
        have hm : Nat.max a (Nat.max b (Nat.max c (Nat.max d 0))) = d := by
          simp only [Nat.max_def]; split_ifs <;> omega
        rw [hw, hm, if_pos (by omega : (0:Nat) < d), if_neg (by omega : ¬ d = 0),
          getD_find4_account a b c d d (by omega) (by omega) (by omega) rfl]
      · have hw : maxFrom ("network", a) [("hardware", b), ("software", c), ("account", d)]
            = ("software", c) := by
          rw [maxFrom4_unfold, if_pos h1, if_pos h2, if_neg h3]; rfl
        have hm : Nat.max a (Nat.max b (Nat.max c (Nat.max d 0))) = c := by
          simp only [Nat.max_def]; split_ifs <;> omega
        rw [hw, hm, if_pos (by omega : (0:Nat) < c), if_neg (by omega : ¬ c = 0),
          getD_find4_software a b c d c (by omega) (by omega) rfl]
    · by_cases h3 : b < d
      · have hw : maxFrom ("network", a) [("hardware", b), ("software", c), ("account", d)]
            = ("account", d) := by
          rw [maxFrom4_unfold, if_pos h1, if_neg h2, if_pos h3]; rfl
        have hm : Nat.max a (Nat.max b (Nat.max c (Nat.max d 0))) = d := by
          simp only [Nat.max_def]; split_ifs <;> omega
        rw [hw, hm, if_pos (by omega : (0:Nat) < d), if_neg (by omega : ¬ d = 0),
          getD_find4_account a b c d d (by omega) (by omega) (by omega) rfl]
      · have hw : maxFrom ("network", a) [("hardware", b), ("software", c), ("account", d)]
            = ("hardware", b) := by
          rw [maxFrom4_unfold, if_pos h1, if_neg h2, if_neg h3]; rfl
        have hm : Nat.max a (Nat.max b (Nat.max c (Nat.max d 0))) = b := by
          simp only [Nat.max_def]; split_ifs <;> omega
        rw [hw, hm, if_pos (by omega : (0:Nat) < b), if_neg (by omega : ¬ b = 0),
          getD_find4_hardware a b c d b (by omega) rfl]
  · by_cases h2 : a < c
    · by_cases h3 : c < d
      · have hw : maxFrom ("network", a) [("hardware", b), ("software", c), ("account", d)]
            = ("account", d) := by
          rw [maxFrom4_unfold, if_neg h1, if_pos h2, if_pos h3]; rfl
        have hm : Nat.max a (Nat.max b (Nat.max c (Nat.max d 0))) = d := by
          simp only [Nat.max_def]; split_ifs <;> omega
        rw [hw, hm, if_pos (by omega : (0:Nat) < d), if_neg (by omega : ¬ d = 0),
          getD_find4_account a b c d d (by omega) (by omega) (by omega) rfl]
      · have hw : maxFrom ("network", a) [("hardware", b), ("software", c), ("account", d)]
            = ("software", c) := by
          rw [maxFrom4_unfold, if_neg h1, if_pos h2, if_neg h3]; rfl
        have hm : Nat.max a (Nat.max b (Nat.max c (Nat.max d 0))) = c := by
          simp only [Nat.max_def]; split_ifs <;> omega
        rw [hw, hm, if_pos (by omega : (0:Nat) < c), if_neg (by omega : ¬ c = 0),
          getD_find4_software a b c d c (by omega) (by omega) rfl]
    · by_cases h3 : a < d
      · have hw : maxFrom ("network", a) [("hardware", b), ("software", c), ("account", d)]
            = ("account", d) := by
          rw [maxFrom4_unfold, if_neg h1, if_neg h2, if_pos h3]; rfl
        have hm : Nat.max a (Nat.max b (Nat.max c (Nat.max d 0))) = d := by
          simp only [Nat.max_def]; split_ifs <;> omega
        rw [hw, hm, if_pos (by omega : (0:Nat) < d), if_neg (by omega : ¬ d = 0),
          getD_find4_account a b c d d (by omega) (by omega) (by omega) rfl]
      · have hw : maxFrom ("network", a) [("hardware", b), ("software", c), ("account", d)]
            = ("network", a) := by
          rw [maxFrom4_unfold, if_neg h1, if_neg h2, if_neg h3]; rfl
        have hm : Nat.max a (Nat.max b (Nat.max c (Nat.max d 0))) = a := by
          simp only [Nat.max_def]; split_ifs <;> omega
        rw [hw, hm]
        by_cases ha : 0 < a
        · rw [if_pos ha, if_neg (by omega : ¬ a = 0), getD_find4_network a b c d a rfl]
        · rw [if_neg ha, if_pos (by omega : a = 0)]

/-- C1: the classifier agrees with the spec description on every input:
lower-case, count distinct contained triggers per category, and return the
category with the strictly highest count, ties broken by the
network, hardware, software, account enumeration order of `KEYWORDS`,
with `software` when every count is zero. -/
theorem classify_eq_spec (s : String) : rule_based_classify s = specClassify s :=
  select_eq
    (keywordScore ["wifi", "wi-fi", "ethernet", "latency", "vpn", "proxy", "dns", "network"] (pyLower s))
    (keywordScore ["laptop", "keyboard", "mouse", "monitor", "battery", "charger", "power", "fan", "overheating"] (pyLower s))
    (keywordScore ["update", "install", "error", "bug", "crash", "app", "software", "driver", "patch"] (pyLower s))
    (keywordScore ["login", "locked", "password", "mfa", "2fa", "permission", "access", "account"] (pyLower s))

theorem classify_unfold (text : String) :
    rule_based_classify text =
      if 0 < (maxFrom
          ("network", keywordScore ["wifi", "wi-fi", "ethernet", "latency", "vpn", "proxy", "dns", "network"] (pyLower text))
          [("hardware", keywordScore ["laptop", "keyboard", "mouse", "monitor", "battery", "charger", "power", "fan", "overheating"] (pyLower text)),
           ("software", keywordScore ["update", "install", "error", "bug", "crash", "app", "software", "driver", "patch"] (pyLower text)),
           ("account", keywordScore ["login", "locked", "password", "mfa", "2fa", "permission", "access", "account"] (pyLower text))]).2
      then (maxFrom
          ("network", keywordScore ["wifi", "wi-fi", "ethernet", "latency", "vpn", "proxy", "dns", "network"] (pyLower text))
          [("hardware", keywordScore ["laptop", "keyboard", "mouse", "monitor", "battery", "charger", "power", "fan", "overheating"] (pyLower text)),
           ("software", keywordScore ["update", "install", "error", "bug", "crash", "app", "software", "driver", "patch"] (pyLower text)),
           ("account", keywordScore ["login", "locked", "password", "mfa", "2fa", "permission", "access", "account"] (pyLower text))]).1
      else "software" := rfl

theorem keywordScore_eq_zero (ws : List String) (t : String)
    (h : ∀ w ∈ ws, pyIn w t = false) : keywordScore ws t = 0 := by
  simp only [keywordScore, List.length_eq_zero, List.filter_eq_nil_iff]
  intro w hw
  simp [h w hw]

theorem maxFrom_of_all_le (l : List (String × Nat)) :
    ∀ best, (∀ p ∈ l, ¬ best.2 < p.2) → maxFrom best l = best := by
  induction l with
  | nil => intro best _; rfl
  | cons p ps ih =>
    intro best h
    show maxFrom (if best.2 < p.2 then p else best) ps = best
    rw [if_neg (h p (by simp))]
    exact ih best fun q hq => h q (by simp [hq])

theorem maxFrom_mem (l : List (String × Nat)) : ∀ best, maxFrom best l ∈ best :: l := by
  induction l with
  | nil => intro best; simp [maxFrom]
  | cons p ps ih =>
    intro best
    show maxFrom (if best.2 < p.2 then p else best) ps ∈ _
    rcases List.mem_cons.mp (ih (if best.2 < p.2 then p else best)) with h1 | h1
    · rw [h1]
      split_ifs <;> simp
    · exact List.mem_cons.mpr (Or.inr (List.mem_cons.mpr (Or.inr h1)))

/-- C4: when no trigger substring of any category occurs in the lower-cased
text, the classifier returns the default category `software`. -/
theorem classify_no_trigger (s : String)
    (h : ∀ p ∈ KEYWORDS, ∀ w ∈ p.2, pyIn w (pyLower s) = false) :
    rule_based_classify s = "software" := by
  have hn := keywordScore_eq_zero _ (pyLower s)
    (h ("network", ["wifi", "wi-fi", "ethernet", "latency", "vpn", "proxy", "dns", "network"]) (by decide))
  have hh := keywordScore_eq_zero _ (pyLower s)
    (h ("hardware", ["laptop", "keyboard", "mouse", "monitor", "battery", "charger", "power", "fan", "overheating"]) (by decide))
  have hs := keywordScore_eq_zero _ (pyLower s)
    (h ("software", ["update", "install", "error", "bug", "crash", "app", "software", "driver", "patch"]) (by decide))
  have ha := keywordScore_eq_zero _ (pyLower s)
    (h ("account", ["login", "locked", "password", "mfa", "2fa", "permission", "access", "account"]) (by decide))
  rw [classify_unfold, hn, hh, hs, ha]
  rfl

theorem classify_no_trigger_witness : rule_based_classify "zzz" = "software" :=
  classify_no_trigger "zzz" (by decide)

/-- C7: a text whose lower-casing contains a trigger of exactly one category
(and none of any other category) is classified as that category. -/
theorem classify_single_category (s cat : String) (ws : List String)
    (hmem : (cat, ws) ∈ KEYWORDS)
    (hpos : 0 < keywordScore ws (pyLower s))
    (hothers : ∀ p ∈ KEYWORDS, p.1 ≠ cat → keywordScore p.2 (pyLower s) = 0) :
    rule_based_classify s = cat := by
  simp only [KEYWORDS, List.mem_cons, List.not_mem_nil, or_false, Prod.mk.injEq] at hmem
  rcases hmem with ⟨hc, hw⟩ | ⟨hc, hw⟩ | ⟨hc, hw⟩ | ⟨hc, hw⟩ <;> subst hc <;> subst hw
  · have hh := hothers ("hardware", ["laptop", "keyboard", "mouse", "monitor", "battery", "charger", "power", "fan", "overheating"]) (by decide) (by decide)
    have hs := hothers ("software", ["update", "install", "error", "bug", "crash", "app", "software", "driver", "patch"]) (by decide) (by decide)
    have ha := hothers ("account", ["login", "locked", "password", "mfa", "2fa", "permission", "access", "account"]) (by decide) (by decide)
    rw [classify_unfold, hh, hs, ha]
    rw [maxFrom_of_all_le _ _ (by
      intro p hp
      simp only [List.mem_cons, List.not_mem_nil, or_false] at hp
      rcases hp with h | h | h <;> subst h <;> simp)]
    rw [if_pos hpos]
  · have hn := hothers ("network", ["wifi", "wi-fi", "ethernet", "latency", "vpn", "proxy", "dns", "network"]) (by decide) (by decide)
    have hs := hothers ("software", ["update", "install", "error", "bug", "crash", "app", "software", "driver", "patch"]) (by decide) (by decide)
    have ha := hothers ("account", ["login", "locked", "password", "mfa", "2fa", "permission", "access", "account"]) (by decide) (by decide)
    rw [classify_unfold, hn, hs, ha]
    have hw1 : maxFrom ("network", 0)
        [("hardware", keywordScore ["laptop", "keyboard", "mouse", "monitor", "battery", "charger", "power", "fan", "overheating"] (pyLower s)),
         ("software", 0), ("account", 0)]
        = ("hardware", keywordScore ["laptop", "keyboard", "mouse", "monitor", "battery", "charger", "power", "fan", "overheating"] (pyLower s)) := by
      show maxFrom (if (0:Nat) < keywordScore ["laptop", "keyboard", "mouse", "monitor", "battery", "charger", "power", "fan", "overheating"] (pyLower s)
          then ("hardware", keywordScore ["laptop", "keyboard", "mouse", "monitor", "battery", "charger", "power", "fan", "overheating"] (pyLower s))
          else ("network", 0)) [("software", 0), ("account", 0)] = _
      rw [if_pos hpos]
      exact maxFrom_of_all_le _ _ (by
        intro p hp
        simp only [List.mem_cons, List.not_mem_nil, or_false] at hp
        rcases hp with h | h <;> subst h <;> simp)
    rw [hw1, if_pos hpos]
  · have hn := hothers ("network", ["wifi", "wi-fi", "ethernet", "latency", "vpn", "proxy", "dns", "network"]) (by decide) (by decide)
    have hh := hothers ("hardware", ["laptop", "keyboard", "mouse", "monitor", "battery", "charger", "power", "fan", "overheating"]) (by decide) (by decide)
    have ha := hothers ("account", ["login", "locked", "password", "mfa", "2fa", "permission", "access", "account"]) (by decide) (by decide)
    rw [classify_unfold, hn, hh, ha]
    have hw1 : maxFrom ("network", 0)
        [("hardware", 0),
         ("software", keywordScore ["update", "install", "error", "bug", "crash", "app", "software", "driver", "patch"] (pyLower s)),
         ("account", 0)]
        = ("software", keywordScore ["update", "install", "error", "bug", "crash", "app", "software", "driver", "patch"] (pyLower s)) := by
      show maxFrom (if (0:Nat) < 0 then ("hardware", 0) else ("network", 0))
        [("software", keywordScore ["update", "install", "error", "bug", "crash", "app", "software", "driver", "patch"] (pyLower s)),
         ("account", 0)] = _
      rw [if_neg (by omega)]
      show maxFrom (if (0:Nat) < keywordScore ["update", "install", "error", "bug", "crash", "app", "software", "driver", "patch"] (pyLower s)
          then ("software", keywordScore ["update", "install", "error", "bug", "crash", "app", "software", "driver", "patch"] (pyLower s))
          else ("network", 0)) [("account", 0)] = _
      rw [if_pos hpos]
      exact maxFrom_of_all_le _ _ (by
        intro p hp
        simp only [List.mem_cons, List.not_mem_nil, or_false] at hp
        subst hp
        simp)
    rw [hw1, if_pos hpos]
  · have hn := hothers ("network", ["wifi", "wi-fi", "ethernet", "latency", "vpn", "proxy", "dns", "network"]) (by decide) (by decide)
    have hh := hothers ("hardware", ["laptop", "keyboard", "mouse", "monitor", "battery", "charger", "power", "fan", "overheating"]) (by decide) (by decide)
    have hs := hothers ("software", ["update", "install", "error", "bug", "crash", "app", "software", "driver", "patch"]) (by decide) (by decide)
    rw [classify_unfold, hn, hh, hs]
    have hw1 : maxFrom ("network", 0)
        [("hardware", 0), ("software", 0),
         ("account", keywordScore ["login", "locked", "password", "mfa", "2fa", "permission", "access", "account"] (pyLower s))]
        = ("account", keywordScore ["login", "locked", "password", "mfa", "2fa", "permission", "access", "account"] (pyLower s)) := by
      show maxFrom (if (0:Nat) < 0 then ("hardware", 0) else ("network", 0))
        [("software", 0),
         ("account", keywordScore ["login", "locked", "password", "mfa", "2fa", "permission", "access", "account"] (pyLower s))] = _
      rw [if_neg (by omega)]
      show maxFrom (if (0:Nat) < 0 then ("software", 0) else ("network", 0))
        [("account", keywordScore ["login", "locked", "password", "mfa", "2fa", "permission", "access", "account"] (pyLower s))] = _
      rw [if_neg (by omega)]
      show maxFrom (if (0:Nat) < keywordScore ["login", "locked", "password", "mfa", "2fa", "permission", "access", "account"] (pyLower s)
          then ("account", keywordScore ["login", "locked", "password", "mfa", "2fa", "permission", "access", "account"] (pyLower s))
          else ("network", 0)) [] = _
      rw [if_pos hpos]
      rfl
    rw [hw1, if_pos hpos]

theorem classify_single_category_witness : rule_based_classify "wifi please" = "network" :=
  classify_single_category "wifi please" "network"
    ["wifi", "wi-fi", "ethernet", "latency", "vpn", "proxy", "dns", "network"]
    (by decide) (by decide) (by decide)

theorem classify_mem (t : String) :
    rule_based_classify t = "network" ∨ rule_based_classify t = "hardware" ∨
    rule_based_classify t = "software" ∨ rule_based_classify t = "account" := by
  rw [classify_unfold]
  split_ifs with h
  · have hm := maxFrom_mem
      [("hardware", keywordScore ["laptop", "keyboard", "mouse", "monitor", "battery", "charger", "power", "fan", "overheating"] (pyLower t)),
       ("software", keywordScore ["update", "install", "error", "bug", "crash", "app", "software", "driver", "patch"] (pyLower t)),
       ("account", keywordScore ["login", "locked", "password", "mfa", "2fa", "permission", "access", "account"] (pyLower t))]
      ("network", keywordScore ["wifi", "wi-fi", "ethernet", "latency", "vpn", "proxy", "dns", "network"] (pyLower t))
    simp only [List.mem_cons, List.not_mem_nil, or_false] at hm
    rcases hm with h1 | h1 | h1 | h1 <;> simp [h1]
  · right; right; left; rfl

/-- C5: every result of the deterministic path has a category from the
closed four-element set, non-empty steps that are exactly the
`SUGGESTIONS` entry of that category, and an escalation flag equal to
`rule_based_escalation` of the combined text and that category. -/
theorem analyze_det_invariants (subject body : String) :
    ((analyze_det subject body).category = "network" ∨
     (analyze_det subject body).category = "hardware" ∨
     (analyze_det subject body).category = "software" ∨
     (analyze_det subject body).category = "account") ∧
    (analyze_det subject body).steps ≠ [] ∧
    lookupStr SUGGESTIONS ((analyze_det subject body).category)
      = some ((analyze_det subject body).steps) ∧
    (analyze_det subject body).escalate =
      rule_based_escalation (subject ++ " " ++ body) ((analyze_det subject body).category) := by
  have hcat : (analyze_det subject body).category
      = rule_based_classify (subject ++ " " ++ body) := rfl
  have hsteps : (analyze_det subject body).steps
      = rule_based_steps (rule_based_classify (subject ++ " " ++ body)) := rfl
  rcases classify_mem (subject ++ " " ++ body) with h | h | h | h
  · exact ⟨Or.inl (hcat.trans h), by rw [hsteps, h]; decide,
      by rw [hcat, hsteps, h]; decide, rfl⟩
  · exact ⟨Or.inr (Or.inl (hcat.trans h)), by rw [hsteps, h]; decide,
      by rw [hcat, hsteps, h]; decide, rfl⟩
  · exact ⟨Or.inr (Or.inr (Or.inl (hcat.trans h))), by rw [hsteps, h]; decide,
      by rw [hcat, hsteps, h]; decide, rfl⟩
  · exact ⟨Or.inr (Or.inr (Or.inr (hcat.trans h))), by rw [hsteps, h]; decide,
      by rw [hcat, hsteps, h]; decide, rfl⟩

theorem lookupStr_SUGGESTIONS_none (c : String) (h1 : c ≠ "network") (h2 : c ≠ "hardware")
    (h3 : c ≠ "software") (h4 : c ≠ "account") : lookupStr SUGGESTIONS c = none := by
  simp only [SUGGESTIONS, lookupStr, beq_iff_eq]
  rw [if_neg (Ne.symm h1), if_neg (Ne.symm h2), if_neg (Ne.symm h3), if_neg (Ne.symm h4)]

/-- C6: `rule_based_steps` is total and deterministic: it returns the
`SUGGESTIONS` entry on the four recognized categories, the software entry on
any other string, and never an empty list. -/
theorem steps_spec (c : String) :
    rule_based_steps c ≠ [] ∧
    (c ≠ "network" → c ≠ "hardware" → c ≠ "software" → c ≠ "account" →
      rule_based_steps c =
        [ "Reboot and retry",
          "Clear cache/temp files",
          "Reinstall or rollback latest update",
          "Check logs for recent errors",
          "Open vendor ticket if reproducible" ]) ∧
    rule_based_steps "network" =
      [ "Toggle Wi‑Fi adapter off/on",
        "Forget & re‑add the SSID",
        "Run ipconfig /flushdns (Windows) or dscacheutil -flushcache (macOS)",
        "Test with Ethernet or mobile hotspot",
        "Check VPN/Proxy settings" ] ∧
    rule_based_steps "hardware" =
      [ "Power cycle device",
        "Check cables/ports",
        "Run Device Manager/Drivers health check",
        "Run OEM diagnostics",
        "Open a replacement request if persistent" ] ∧
    rule_based_steps "software" =
      [ "Reboot and retry",
        "Clear cache/temp files",
        "Reinstall or rollback latest update",
        "Check logs for recent errors",
        "Open vendor ticket if reproducible" ] ∧
    rule_based_steps "account" =
      [ "Attempt self‑service password reset",
        "Verify MFA device/time sync",
        "Check group/role permissions",
        "Escalate to IAM if blocked",
        "Security check for suspicious activity" ] := by
  refine ⟨?_, ?_, by decide, by decide, by decide, by decide⟩
  · by_cases h1 : c = "network"
    · subst h1; decide
    · by_cases h2 : c = "hardware"
      · subst h2; decide
      · by_cases h3 : c = "software"
        · subst h3; decide
        · by_cases h4 : c = "account"
          · subst h4; decide
          · rw [rule_based_steps, lookupStr_SUGGESTIONS_none c h1 h2 h3 h4]
            decide
  · intro h1 h2 h3 h4
    rw [rule_based_steps, lookupStr_SUGGESTIONS_none c h1 h2 h3 h4]
    decide

theorem steps_spec_witness :
    rule_based_steps "printer" =
      [ "Reboot and retry",
        "Clear cache/temp files",
        "Reinstall or rollback latest update",
        "Check logs for recent errors",
        "Open vendor ticket if reproducible" ] :=
  (steps_spec "printer").2.1 (by decide) (by decide) (by decide) (by decide)
